import Mathlib

/-!
# Verification of the Nanite Discord bot (`src/Nanite`)

A shallow embedding of the two source files `nanite.py` and
`planetside2.py`.  Handlers are modelled as pure functions from their
inputs and an oracle for the external I/O (HTTP responses, game-data
client fetches) to a *trace* of observable events: argument resolution,
API requests, embed construction and `ctx.send` calls.  An un-awaited
`ctx.send(...)` (a coroutine that is created but never executed) is
recorded in the trace with `awaited = false` and delivers nothing.

Machine reals: the Python handlers do float division and `round(x, 2)`.
The embedding works in exact rationals `ℚ`; `round2` models Python's
two-decimal rounding (tie behaviour abstracted to round-half-up on
exact rationals).  String rendering of numbers inside embed bodies uses
`toString` of the exact value; no claim depends on that rendering.
-/

/-- The 26 ASCII letter pairs (uppercase, lowercase). -/
def asciiLetters : List (Char × Char) :=
  [('A', 'a'), ('B', 'b'), ('C', 'c'), ('D', 'd'), ('E', 'e'),
   ('F', 'f'), ('G', 'g'), ('H', 'h'), ('I', 'i'), ('J', 'j'),
   ('K', 'k'), ('L', 'l'), ('M', 'm'), ('N', 'n'), ('O', 'o'),
   ('P', 'p'), ('Q', 'q'), ('R', 'r'), ('S', 's'), ('T', 't'),
   ('U', 'u'), ('V', 'v'), ('W', 'w'), ('X', 'x'), ('Y', 'y'),
   ('Z', 'z')]

/-- An ASCII lowercasing of a single character, modelling Python's
`str.lower` on the ASCII domain used by the world table: an uppercase
letter becomes its lowercase pair, anything else is unchanged. -/
def lowerChar (c : Char) : Char :=
  ((asciiLetters.find? fun p => p.1 = c).map Prod.snd).getD c

/-- An ASCII uppercasing of a single character, modelling Python's
`str.upper` on single ASCII characters (used by `str.capitalize`). -/
def upperChar (c : Char) : Char :=
  ((asciiLetters.find? fun p => p.2 = c).map Prod.fst).getD c

/-- Python's `str.lower` (ASCII fragment): lowercase every character. -/
def lower (s : String) : String :=
  ⟨s.data.map lowerChar⟩

/-- Python's `str.capitalize` (ASCII fragment): first character
uppercased, the rest lowercased. -/
def pyCapitalize (s : String) : String :=
  match s.data with
  | [] => ""
  | c :: cs => ⟨upperChar c :: cs.map lowerChar⟩

/-- Python `dict.get k` on an association list with distinct keys. -/
def dictGet (k : String) : List (String × Nat) → Option Nat
  | [] => none
  | (k2, v) :: rest => if k = k2 then some v else dictGet k rest

/-- The `worlds` dict literal of `Planetside2._get_world_id`
(`planetside2.py` lines 43-51).  Note the key `"solTech"` is written
with an uppercase `T` in the source. -/
def worldsList : List (String × Nat) :=
  [("connery", 1), ("miller", 10), ("cobalt", 13), ("emerald", 17),
   ("jaeger", 19), ("apex", 24), ("solTech", 40)]

/-- `Planetside2._get_world_id` (`planetside2.py` lines 31-55):
`worlds.get(world_name.lower(), None)`. -/
def getWorldId (world_name : String) : Option Nat :=
  dictGet (lower world_name) worldsList

/-- A `discord.Embed` as built by `Planetside2._create_embed`
(`planetside2.py` lines 74-94). -/
structure Embed where
  title : String
  description : String
  colour : String
  thumbnail : Option String
deriving DecidableEq, Repr

/-- `self.COLOUR = discord.Colour().teal()` (`planetside2.py` line 26),
kept abstract as a tag. -/
def COLOUR : String := "teal"

/-- `Planetside2._create_embed`: builds the embed record. -/
def createEmbed (title description colour : String)
    (thumbnail_url : Option String) : Embed :=
  ⟨title, description, colour, thumbnail_url⟩

/-- One observable step of a command handler. `send` and `sendEmbed`
record whether the `ctx.send(...)` coroutine was awaited. -/
inductive Event where
  | resolveWorld (name : String) (result : Option Nat)
  | apiRequest (subResource : String)
  | createEmbedEv (e : Embed)
  | send (content : String) (awaited : Bool)
  | sendEmbed (e : Embed) (awaited : Bool)
deriving DecidableEq, Repr

/-- Whether an event is an outgoing HTTP API request. -/
def Event.isApiRequest : Event → Bool
  | .apiRequest _ => true
  | _ => false

/-- A message actually delivered to the channel. -/
inductive Sent where
  | plain (content : String)
  | embed (e : Embed)
deriving DecidableEq, Repr

/-- The messages a trace actually delivers: only awaited sends; an
un-awaited `ctx.send` creates a coroutine that never runs. -/
def delivered (t : List Event) : List Sent :=
  t.filterMap fun ev =>
    match ev with
    | .send c true => some (.plain c)
    | .sendEmbed e true => some (.embed e)
    | _ => none

/-- One row of the fisu population JSON (`json["result"][i]`), with the
four faction-count fields the handler reads. -/
structure PopRow where
  tr : Nat
  nc : Nat
  vs : Nat
  ns : Nat
deriving DecidableEq, Repr

/-- The fisu population JSON payload: its `"result"` list. -/
structure PopJson where
  result : List PopRow
deriving DecidableEq, Repr

/-- The embed description built at `planetside2.py` line 127. -/
def popDescription (row : PopRow) : String :=
  "**TR**: " ++ toString row.tr ++ "\n**NC**: " ++ toString row.nc ++
  "\n**VS**: " ++ toString row.vs ++ "\n**NSO**: " ++ toString row.ns

/-- The failure message sent at `planetside2.py` lines 135-137. -/
def popFailText (world : String) (world_id : Nat) : String :=
  "Failed to get current population data for world: " ++ world ++
  ", ID: " ++ toString world_id

/-- The embed built in the `population` success path
(`planetside2.py` lines 125-129): no thumbnail. -/
def popEmbed (world : String) (row : PopRow) : Embed :=
  createEmbed ("Current population data for: " ++ pyCapitalize world)
    (popDescription row) COLOUR none

/-- The sub-resource string passed to `_get_json` at line 120. -/
def popSubResource (world_id : Nat) : String :=
  "population/?world=" ++ toString world_id

/-- `Planetside2.population` (`planetside2.py` lines 99-140) as a trace
of events.  `api` is the oracle for `_get_json`: the HTTP response for
a given sub-resource, or the exception it raises.  The `if world_id:`
truthiness test of line 115 is modelled exactly: `None` and `0` both
take the unknown-world branch.  A `KeyError`/`IndexError` while reading
`json["result"][0]` is modelled by an empty `result` list; both it and
a request failure land in the `except` branch. -/
def population (world : String) (api : String → Except String PopJson) :
    List Event :=
  let world_id := getWorldId world
  Event.resolveWorld world world_id ::
  match world_id with
  | none => [Event.send ("World: " ++ world ++ " unknown.") true]
  | some id =>
    if id = 0 then [Event.send ("World: " ++ world ++ " unknown.") true]
    else
      Event.apiRequest (popSubResource id) ::
      match api (popSubResource id) with
      | .error _ => [Event.send (popFailText world id) true]
      | .ok json =>
        match json.result with
        | [] => [Event.send (popFailText world id) true]
        | row :: _ =>
          [Event.createEmbedEv (popEmbed world row),
           Event.sendEmbed (popEmbed world row) true]

/-- `value_forever_vs/nc/tr` of one `stat_by_faction` row, as read by
`pi` (`planetside2.py` lines 179-183, 200-204). -/
structure FactionValues where
  value_forever_vs : Nat
  value_forever_nc : Nat
  value_forever_tr : Nat
deriving DecidableEq, Repr

/-- Everything `pi` fetches about a player through the auraxium client
before computing derived statistics (`planetside2.py` lines 152-204).
The stat endpoints return lists; the handler indexes `[0]`. -/
structure RawPlayer where
  name_first : String
  minutes_played : Nat
  world : String
  outfit : String
  battle_rank : Nat
  prestige_level : Nat
  is_online : Bool
  last_login_date : String
  certs_earned_points : Nat
  creation_date : String
  faction_image_path : String
  weapon_deaths : List Nat
  weapon_kills : List FactionValues
  score_all_time : List Nat
  weapon_headshots : List FactionValues
deriving DecidableEq, Repr

/-- Python `round(x, 2)` on an exact rational: two-decimal rounding
(tie behaviour abstracted to round-half-up). -/
def round2 (q : ℚ) : ℚ :=
  ((round (q * 100) : ℤ) : ℚ) / 100

/-- Python `xs[0]`: `IndexError` on an empty list. -/
def expectHead {α : Type} : List α → Except String α
  | [] => .error "IndexError: list index out of range"
  | a :: _ => .ok a

/-- Python `a / b` on numbers: `ZeroDivisionError` when `b = 0`. -/
def pyDiv (a b : ℚ) : Except String ℚ :=
  if b = 0 then .error "ZeroDivisionError: division by zero"
  else .ok (a / b)

/-- The derived statistics `pi` computes inside its `try` block. -/
structure PlayerStats where
  hours_played : ℚ
  total_deaths : Nat
  total_kills : Nat
  kph : ℚ
  kdr : ℚ
  total_score : Nat
  spm : ℚ
  hs_total : Nat
  hsr : ℚ
deriving DecidableEq, Repr

/-- The statistic computations of `pi` (`planetside2.py` lines
156-206), in source order: any `IndexError` or `ZeroDivisionError`
aborts into the `except` branch. -/
def computeStats (p : RawPlayer) : Except String PlayerStats := do
  let hours_played : ℚ := round2 ((p.minutes_played : ℚ) / 60)
  let total_deaths ← expectHead p.weapon_deaths
  let kills ← expectHead p.weapon_kills
  let total_kills :=
    kills.value_forever_vs + kills.value_forever_nc + kills.value_forever_tr
  let kphRaw ← pyDiv (total_kills : ℚ) hours_played
  let kph := round2 kphRaw
  let kdrRaw ← pyDiv (total_kills : ℚ) (total_deaths : ℚ)
  let kdr := round2 kdrRaw
  let total_score ← expectHead p.score_all_time
  let spmRaw ← pyDiv (total_score : ℚ) (p.minutes_played : ℚ)
  let spm := round2 spmRaw
  let hs ← expectHead p.weapon_headshots
  let hs_total :=
    hs.value_forever_vs + hs.value_forever_nc + hs.value_forever_tr
  let hsrRaw ← pyDiv (hs_total : ℚ) (total_kills : ℚ)
  let hsr := round2 (hsrRaw * 100)
  pure ⟨hours_played, total_deaths, total_kills, kph, kdr, total_score,
        spm, hs_total, hsr⟩

/-- The failure message of `pi`'s `except` branch (line 211). -/
def piFailText (player_name : String) : String :=
  "Failed to get player information for: " ++ player_name

/-- The `player_info` body string (`planetside2.py` lines 218-248).
Numeric rendering uses `toString` of the exact value. -/
def playerInfo (p : RawPlayer) (s : PlayerStats) : String :=
  "\n**Server**\n" ++ p.world ++
  "\n\n**Outfit**\n" ++ p.outfit ++
  "\n\n**Battle Rank (Prestige)**\n" ++ toString p.battle_rank ++
  " (" ++ toString p.prestige_level ++ ")" ++
  "\n\n**Total Kills**    **Total Deaths**    **Total Score**\n" ++
  toString s.total_kills ++ "    " ++ toString s.total_deaths ++ "    " ++
  toString s.total_score ++
  "\n\n**KDR**    **SPM**    **HSR**    **KPH**\n" ++
  toString s.kdr ++ "    " ++ toString s.spm ++ "    " ++
  toString s.hsr ++ "%    " ++ toString s.kph ++
  "\n\n**Currently Online**\n" ++ toString p.is_online ++
  "\n\n**Last Login**\n" ++ p.last_login_date ++
  "\n\n**Playtime Hours (Minutes)**\n" ++ toString s.hours_played ++
  " (" ++ toString p.minutes_played ++ ")" ++
  "\n\n**Total Certs Earned**\n" ++ toString p.certs_earned_points ++
  "\n\n**Created**\n" ++ p.creation_date ++ "\n        "

/-- The embed built in `pi`'s success path (lines 250-255): thumbnail
is the faction image URL built at lines 214-216. -/
def piEmbed (p : RawPlayer) (s : PlayerStats) : Embed :=
  createEmbed (p.name_first ++ "\x27s Information") (playerInfo p s) COLOUR
    (some ("https://census.daybreakgames.com" ++ p.faction_image_path))

/-- `Planetside2.pi` (`planetside2.py` lines 143-256) as a trace.
`fetch` is the oracle for the auraxium client: the fetched player data
or the exception raised while fetching.  In the `except` branch the
source calls `ctx.send(...)` WITHOUT `await` (line 211), so the send is
recorded with `awaited = false` and the handler returns. -/
def pi (player_name : String) (fetch : Except String RawPlayer) :
    List Event :=
  match fetch.bind (fun raw => (computeStats raw).map fun s => (raw, s)) with
  | .error _ => [Event.send (piFailText player_name) false]
  | .ok (raw, s) =>
    [Event.createEmbedEv (piEmbed raw s),
     Event.sendEmbed (piEmbed raw s) true]

/-- Everything `oi` fetches about an outfit (`planetside2.py` lines
268-277): the outfit record and its leader's rendered name. -/
structure RawOutfit where
  name : String
  time_created_date : String
  member_count : Nat
  leader : String
deriving DecidableEq, Repr

/-- The failure message of `oi`'s `except` branch (lines 282-284). -/
def oiFailText (outfit_tag : String) : String :=
  "Failed to get outfit information for outfit tag: " ++ outfit_tag ++ "."

/-- The `outfit_info` body string (lines 287-291). -/
def outfitInfo (o : RawOutfit) : String :=
  "**Outfit name**: " ++ o.name ++
  "\n**Creation Date**: " ++ o.time_created_date ++
  "\n**Member Count**: " ++ toString o.member_count ++
  "\n**Outfit Leader**: " ++ o.leader ++ "\n        "

/-- The embed built in `oi`'s success path (lines 293-297). -/
def oiEmbed (outfit_tag : String) (o : RawOutfit) : Embed :=
  createEmbed ("Outfit Information for " ++ pyCapitalize outfit_tag ++ ":")
    (outfitInfo o) COLOUR none

/-- `Planetside2.oi` (`planetside2.py` lines 258-298) as a trace.
`fetch` is the oracle for the auraxium lookups (which receive the
capitalised tag).  As in `pi`, the `except` branch calls `ctx.send`
without `await` (line 282): recorded with `awaited = false`. -/
def oi (outfit_tag : String) (fetch : Except String RawOutfit) :
    List Event :=
  match fetch with
  | .error _ => [Event.send (oiFailText outfit_tag) false]
  | .ok o =>
    [Event.createEmbedEv (oiEmbed outfit_tag o),
     Event.sendEmbed (oiEmbed outfit_tag o) true]

/-- One statement of the `ping` handler body, abstracted to the names
it reads (`refs`) and, for an assignment, the name it binds.  Python
resolves a name inside an f-string at execution time and raises
`NameError` if it is unbound. -/
inductive PyStmt where
  | assign (lhs : String) (refs : List String)
  | logInfo (refs : List String)
  | sendCall (content : String) (refs : List String)
deriving DecidableEq, Repr

/-- The Python `NameError` message for an unbound name. -/
def nameError (r : String) : String :=
  "NameError: name \x27" ++ r ++ "\x27 is not defined"

/-- The first name of `refs` that is not bound in `env`, if any. -/
def firstUndefined (env refs : List String) : Option String :=
  refs.find? fun r => !env.contains r

/-- Run a handler body: each statement first resolves the names it
reads; an unbound name raises `NameError` and aborts the handler.
Returns the messages sent so far and the exception, if one was
raised. -/
def runPy (env sent : List String) :
    List PyStmt → List String × Option String
  | [] => (sent, none)
  | .assign x refs :: rest =>
    match firstUndefined env refs with
    | some r => (sent, some (nameError r))
    | none => runPy (env ++ [x]) sent rest
  | .logInfo refs :: rest =>
    match firstUndefined env refs with
    | some r => (sent, some (nameError r))
    | none => runPy env sent rest
  | .sendCall c refs :: rest =>
    match firstUndefined env refs with
    | some r => (sent, some (nameError r))
    | none => runPy env (sent ++ [c]) rest

/-- The names in scope when the `ping` body runs: the module globals of
`nanite.py` (imports, config names, the bot object) plus the handler's
parameter `ctx`. -/
def pingGlobals : List String :=
  ["BOT_COMMAND_PREFIX", "BOT_DESCRIPTION", "discord", "datetime",
   "logger", "nanite", "ctx"]

/-- The body of `ping` (`nanite.py` lines 27-38):
line 33 binds `delta` from `datetime` and `ctx`; line 34 logs an
f-string that reads the UNBOUND name `time_difference`; lines 35-38
would send the Pong reply reading `ctx`, `delta` and `discord`. -/
def pingBody : List PyStmt :=
  [ .assign "delta" ["datetime", "ctx"],
    .logInfo ["logger", "time_difference"],
    .sendCall "Pong!" ["ctx", "delta", "discord"] ]

/-- Executing the `ping` handler: messages sent, and the exception. -/
def ping : List String × Option String :=
  runPy pingGlobals [] pingBody

/-- A concrete fetched player used by witnesses: 120 minutes played,
50 deaths, 10+20+30 kills, 6000 score, 1+2+3 headshots. -/
def samplePlayer : RawPlayer :=
  ⟨"Higby", 120, "Emerald", "RPS", 100, 2, true, "2021-01-01", 5000,
   "2015-01-01", "/files/ps2/images/static/94.png",
   [50], [⟨10, 20, 30⟩], [6000], [⟨1, 2, 3⟩]⟩

/-- The statistics `computeStats` derives for `samplePlayer`. -/
def sampleStats : PlayerStats :=
  ⟨2, 50, 60, 30, 6 / 5, 6000, 50, 6, 10⟩

/-! ## Helper lemmas -/

/-- No character lowercases to an uppercase letter: in particular
`lowerChar` never produces `T`. -/
theorem lowerChar_ne_upper_T (c : Char) : lowerChar c ≠ 'T' := by
  intro h
  unfold lowerChar at h
  cases hf : asciiLetters.find? fun p => p.1 = c with
  | none =>
    rw [hf] at h
    simp at h
    subst h
    exact absurd hf (by decide)
  | some p =>
    rw [hf] at h
    simp at h
    have hmem := List.mem_of_find?_eq_some hf
    fin_cases hmem <;> exact absurd h (by decide)

/-- If the lookup succeeds, the looked-up key/value pair is a table
entry. -/
theorem dictGet_mem {k : String} {l : List (String × Nat)} {v : Nat}
    (h : dictGet k l = some v) : (k, v) ∈ l := by
  induction l with
  | nil => simp [dictGet] at h
  | cons p rest ih =>
    obtain ⟨k2, v2⟩ := p
    by_cases hk : k = k2
    · subst hk
      simp [dictGet] at h
      simp [h]
    · simp [dictGet, hk] at h
      exact List.mem_cons_of_mem _ (ih h)

/-- A successful world lookup means the lowercased name and the id are
one of the seven table entries. -/
theorem getWorldId_mem {s : String} {v : Nat}
    (h : getWorldId s = some v) : (lower s, v) ∈ worldsList :=
  dictGet_mem h

/-- No input's lowercasing equals the table key `"solTech"`: the key
has an uppercase `T` at position 3, which `lowerChar` never emits. -/
theorem lower_ne_solTech (s : String) : lower s ≠ "solTech" := by
  intro h
  unfold lower at h
  have hdata : s.data.map lowerChar = "solTech".data := congrArg String.data h
  have hmem : 'T' ∈ s.data.map lowerChar := by
    rw [hdata]; decide
  obtain ⟨c, _, hc⟩ := List.mem_map.mp hmem
  exact lowerChar_ne_upper_T c hc

/-- The ids a successful lookup can return: every value except the dead
`solTech` entry's `40`. -/
theorem getWorldId_values {s : String} {v : Nat}
    (h : getWorldId s = some v) :
    v = 1 ∨ v = 10 ∨ v = 13 ∨ v = 17 ∨ v = 19 ∨ v = 24 := by
  have hmem := getWorldId_mem h
  simp only [worldsList, List.mem_cons, List.not_mem_nil, or_false,
    Prod.mk.injEq] at hmem
  rcases hmem with ⟨_, h1⟩ | ⟨_, h1⟩ | ⟨_, h1⟩ | ⟨_, h1⟩ | ⟨_, h1⟩ |
    ⟨_, h1⟩ | ⟨hk, _⟩
  all_goals first
    | omega
    | exact absurd hk (lower_ne_solTech s)

/-- A found world id is never `0`, so the `if world_id:` truthiness
test of line 115 agrees with an `is not None` test on this table. -/
theorem getWorldId_ne_zero {s : String} {v : Nat}
    (h : getWorldId s = some v) : v ≠ 0 := by
  rcases getWorldId_values h with h1 | h1 | h1 | h1 | h1 | h1 <;>
    simp [h1]

/-- The success path of the statistic pipeline, symbolically: when the
four stat lists are non-empty and no divisor is zero, `computeStats`
returns exactly the formulas of `planetside2.py` lines 156-206. -/
theorem computeStats_ok (p : RawPlayer) (d : Nat) (dr : List Nat)
    (k : FactionValues) (kr : List FactionValues)
    (sc : Nat) (scr : List Nat)
    (hsv : FactionValues) (hsr2 : List FactionValues)
    (hd : p.weapon_deaths = d :: dr)
    (hk : p.weapon_kills = k :: kr)
    (hsc : p.score_all_time = sc :: scr)
    (hhs : p.weapon_headshots = hsv :: hsr2)
    (h1 : ¬ round2 ((p.minutes_played : ℚ) / 60) = 0)
    (h2 : ¬ ((d : ℚ) = 0))
    (h3 : ¬ ((p.minutes_played : ℚ) = 0))
    (h4 : ¬ (((k.value_forever_vs + k.value_forever_nc +
        k.value_forever_tr : Nat) : ℚ) = 0)) :
    computeStats p = Except.ok
      ⟨round2 ((p.minutes_played : ℚ) / 60), d,
       k.value_forever_vs + k.value_forever_nc + k.value_forever_tr,
       round2 (((k.value_forever_vs + k.value_forever_nc +
         k.value_forever_tr : Nat) : ℚ) /
         round2 ((p.minutes_played : ℚ) / 60)),
       round2 (((k.value_forever_vs + k.value_forever_nc +
         k.value_forever_tr : Nat) : ℚ) / (d : ℚ)),
       sc,
       round2 ((sc : ℚ) / (p.minutes_played : ℚ)),
       hsv.value_forever_vs + hsv.value_forever_nc + hsv.value_forever_tr,
       round2 (((hsv.value_forever_vs + hsv.value_forever_nc +
         hsv.value_forever_tr : Nat) : ℚ) /
         ((k.value_forever_vs + k.value_forever_nc +
           k.value_forever_tr : Nat) : ℚ) * 100)⟩ := by
  simp only [computeStats, hd, hk, hsc, hhs, expectHead, pyDiv, bind,
    Except.bind, pure, Except.pure]
  rw [if_neg h1]
  simp only [Except.bind]
  rw [if_neg h2]
  simp only [Except.bind]
  rw [if_neg h3]
  simp only [Except.bind]
  rw [if_neg h4]

/-- Evaluating the statistic pipeline on the sample player. -/
theorem computeStats_sample :
    computeStats samplePlayer = Except.ok sampleStats := by
  have h := computeStats_ok samplePlayer 50 [] ⟨10, 20, 30⟩ [] 6000 []
    ⟨1, 2, 3⟩ [] rfl rfl rfl rfl
    (by unfold round2 samplePlayer; norm_num)
    (by norm_num)
    (by unfold samplePlayer; norm_num)
    (by norm_num)
  rw [h]
  show Except.ok _ = Except.ok (⟨2, 50, 60, 30, 6 / 5, 6000, 50, 6, 10⟩ :
    PlayerStats)
  simp only [Except.ok.injEq, samplePlayer, PlayerStats.mk.injEq]
  refine ⟨?_, ?_, ?_, ?_, ?_, ?_, ?_, ?_, ?_⟩ <;>
    first
      | trivial
      | (unfold round2; norm_num)

/-! ## Claims -/

/-- C1: the claim says `_get_world_id` maps every case-insensitive
spelling of the seven world names (including soltech) to its id, and
everything else to `None`.  The six all-lowercase keys behave as
claimed, but the dead table key `"solTech"` makes every spelling of
soltech return `None` instead of `40`: the code contradicts the
claimed (and clearly intended) table, a slip in the source. -/
theorem getWorldId_table_behaviour :
    getWorldId "connery" = some 1 ∧ getWorldId "Connery" = some 1 ∧
    getWorldId "miller" = some 10 ∧ getWorldId "MILLER" = some 10 ∧
    getWorldId "cobalt" = some 13 ∧ getWorldId "emerald" = some 17 ∧
    getWorldId "jaeger" = some 19 ∧ getWorldId "Apex" = some 24 ∧
    getWorldId "apex" = some 24 ∧
    getWorldId "soltech" = none ∧ getWorldId "SolTech" = none ∧
    getWorldId "SOLTECH" = none ∧ getWorldId "hossin" = none := by
  decide

/-- C9: `ping` (`nanite.py` lines 27-38) computes `delta` but its
logging f-string reads the unbound name `time_difference`, so every
invocation raises `NameError` at line 34 and the Pong reply of lines
35-38 is never sent: no message is delivered. -/
theorem ping_raises_name_error :
    ping = ([], some (nameError "time_difference")) := by
  decide

/-- C8: every capitalisation of "soltech" (every string whose
Python-lowercasing is `"soltech"`) gets `None` from `_get_world_id`,
and the table entry for id `40` is unreachable: a successful lookup
only ever returns one of the six other ids, because the lookup
lowercases its input while the key `"solTech"` keeps an uppercase
letter. -/
theorem soltech_entry_unreachable :
    (∀ s : String, lower s = "soltech" → getWorldId s = none) ∧
    (∀ (s : String) (v : Nat), getWorldId s = some v →
      v = 1 ∨ v = 10 ∨ v = 13 ∨ v = 17 ∨ v = 19 ∨ v = 24) := by
  constructor
  · intro s h
    unfold getWorldId
    rw [h]
    decide
  · intro s v h
    exact getWorldId_values h

/-- Witness for C8: the capitalisation `"SolTech"` (the table's own
spelling) lowercases to `"soltech"` and is not found. -/
theorem soltech_entry_unreachable_witness :
    lower "SolTech" = "soltech" ∧ getWorldId "SolTech" = none :=
  ⟨by decide, soltech_entry_unreachable.1 "SolTech" (by decide)⟩

/-- C2: every `population` invocation follows the handler sequence in
order: the trace always starts with world-name resolution; an API
request only ever appears after it, and the message (plain failure
text, or the embed built from the JSON) is formatted and sent only
after the request.  No API call precedes argument resolution. -/
theorem population_handler_order (world : String)
    (api : String → Except String PopJson) :
    ∃ rest, population world api =
        Event.resolveWorld world (getWorldId world) :: rest ∧
      ((getWorldId world = none ∧
          rest = [Event.send ("World: " ++ world ++ " unknown.") true]) ∨
        (∃ id tail, getWorldId world = some id ∧
          rest = Event.apiRequest (popSubResource id) :: tail ∧
          (tail = [Event.send (popFailText world id) true] ∨
            ∃ row, tail = [Event.createEmbedEv (popEmbed world row),
              Event.sendEmbed (popEmbed world row) true]))) := by
  cases hgw : getWorldId world with
  | none =>
    exact ⟨[Event.send ("World: " ++ world ++ " unknown.") true],
      by simp [population, hgw], Or.inl ⟨rfl, rfl⟩⟩
  | some id =>
    have hz : id ≠ 0 := getWorldId_ne_zero hgw
    cases hapi : api (popSubResource id) with
    | error e =>
      exact ⟨Event.apiRequest (popSubResource id) ::
          [Event.send (popFailText world id) true],
        by simp [population, hgw, hz, hapi],
        Or.inr ⟨id, _, rfl, rfl, Or.inl rfl⟩⟩
    | ok json =>
      cases hres : json.result with
      | nil =>
        exact ⟨Event.apiRequest (popSubResource id) ::
            [Event.send (popFailText world id) true],
          by simp [population, hgw, hz, hapi, hres],
          Or.inr ⟨id, _, rfl, rfl, Or.inl rfl⟩⟩
      | cons row tl =>
        exact ⟨Event.apiRequest (popSubResource id) ::
            [Event.createEmbedEv (popEmbed world row),
             Event.sendEmbed (popEmbed world row) true],
          by simp [population, hgw, hz, hapi, hres],
          Or.inr ⟨id, _, rfl, rfl, Or.inr ⟨row, rfl⟩⟩⟩

/-- C3: with a world name not in the table the handler performs no
HTTP request and delivers exactly the message
`"World: {world} unknown."`. -/
theorem population_unknown_world (world : String)
    (api : String → Except String PopJson)
    (h : getWorldId world = none) :
    (∀ e ∈ population world api, e.isApiRequest = false) ∧
    delivered (population world api) =
      [Sent.plain ("World: " ++ world ++ " unknown.")] := by
  have htrace : population world api =
      [Event.resolveWorld world none,
       Event.send ("World: " ++ world ++ " unknown.") true] := by
    simp [population, h]
  rw [htrace]
  constructor
  · intro e he
    simp only [List.mem_cons, List.not_mem_nil, or_false] at he
    rcases he with rfl | rfl <;> rfl
  · rfl

/-- Witness for C3: world `"hossin"` is not in the table; the unknown
message is the only thing delivered. -/
theorem population_unknown_world_witness :
    getWorldId "hossin" = none ∧
    delivered (population "hossin" fun _ => Except.error "down") =
      [Sent.plain ("World: " ++ "hossin" ++ " unknown.")] :=
  ⟨by decide,
    (population_unknown_world "hossin" (fun _ => Except.error "down")
      (by decide)).2⟩

/-- C4: for a known world exactly one API request appears in the trace
(never a retry), and any failure inside the `try` block - the request
itself raising, or the `json["result"][0]` extraction failing - is
caught and turned into the single plain failure message instead of
propagating. -/
theorem population_single_call_catches (world : String) (id : Nat)
    (api : String → Except String PopJson)
    (h : getWorldId world = some id) :
    (population world api).countP Event.isApiRequest = 1 ∧
    (∀ e, api (popSubResource id) = Except.error e →
      delivered (population world api) =
        [Sent.plain (popFailText world id)]) ∧
    (∀ json, api (popSubResource id) = Except.ok json → json.result = [] →
      delivered (population world api) =
        [Sent.plain (popFailText world id)]) := by
  have hz : id ≠ 0 := getWorldId_ne_zero h
  refine ⟨?_, ?_, ?_⟩
  · cases hapi : api (popSubResource id) with
    | error e =>
      simp [population, h, hz, hapi, List.countP_cons, Event.isApiRequest]
    | ok json =>
      cases hres : json.result with
      | nil =>
        simp [population, h, hz, hapi, hres, List.countP_cons,
          Event.isApiRequest]
      | cons row tl =>
        simp [population, h, hz, hapi, hres, List.countP_cons,
          Event.isApiRequest]
  · intro e hapi
    simp [population, h, hz, hapi, delivered]
  · intro json hapi hres
    simp [population, h, hz, hapi, hres, delivered]

/-- Witness for C4: world `"miller"` with an API that raises: one
request in the trace, and the failure message is delivered. -/
theorem population_single_call_catches_witness :
    getWorldId "miller" = some 10 ∧
    delivered (population "miller" fun _ => Except.error "timeout") =
      [Sent.plain (popFailText "miller" 10)] :=
  ⟨by decide,
    (population_single_call_catches "miller" 10
      (fun _ => Except.error "timeout") (by decide)).2.1 "timeout" rfl⟩

/-- C5: on a successful response the handler formats the FIRST element
of `json["result"]` into an embed whose description carries the `tr`,
`nc`, `vs` and `ns` fields labelled TR, NC, VS and NSO, and that embed
is the one delivered message. -/
theorem population_success_embed (world : String) (id : Nat)
    (api : String → Except String PopJson) (json : PopJson)
    (row : PopRow) (tl : List PopRow)
    (h : getWorldId world = some id)
    (hapi : api (popSubResource id) = Except.ok json)
    (hres : json.result = row :: tl) :
    delivered (population world api) =
      [Sent.embed
        ⟨"Current population data for: " ++ pyCapitalize world,
         "**TR**: " ++ toString row.tr ++ "\n**NC**: " ++ toString row.nc ++
           "\n**VS**: " ++ toString row.vs ++ "\n**NSO**: " ++
           toString row.ns,
         COLOUR, none⟩] := by
  have hz : id ≠ 0 := getWorldId_ne_zero h
  simp [population, h, hz, hapi, hres, delivered, popEmbed, createEmbed,
    popDescription]

/-- Witness for C5: world `"cobalt"` with a one-row result. -/
theorem population_success_embed_witness :
    getWorldId "cobalt" = some 13 ∧
    delivered (population "cobalt" fun _ => Except.ok ⟨[⟨11, 22, 33, 4⟩]⟩) =
      [Sent.embed
        ⟨"Current population data for: " ++ pyCapitalize "cobalt",
         "**TR**: " ++ toString 11 ++ "\n**NC**: " ++ toString 22 ++
           "\n**VS**: " ++ toString 33 ++ "\n**NSO**: " ++ toString 4,
         COLOUR, none⟩] :=
  ⟨by decide,
    population_success_embed "cobalt" 13
      (fun _ => Except.ok ⟨[⟨11, 22, 33, 4⟩]⟩) ⟨[⟨11, 22, 33, 4⟩]⟩
      ⟨11, 22, 33, 4⟩ [] (by decide) rfl rfl⟩

/-- C6: each of the three statistic commands delivers its result as a
chat embed on the success path: `population` the population embed,
`pi` the player-information embed, `oi` the outfit-information embed;
in each case the awaited `ctx.send(embed=...)` is the only delivered
message. -/
theorem handlers_send_embeds
    (world : String) (id : Nat) (api : String → Except String PopJson)
    (json : PopJson) (row : PopRow) (tl : List PopRow)
    (h1 : getWorldId world = some id)
    (h2 : api (popSubResource id) = Except.ok json)
    (h3 : json.result = row :: tl)
    (pname : String) (raw : RawPlayer) (s : PlayerStats)
    (h4 : computeStats raw = Except.ok s)
    (tag : String) (o : RawOutfit) :
    delivered (population world api) = [Sent.embed (popEmbed world row)] ∧
    delivered (pi pname (Except.ok raw)) = [Sent.embed (piEmbed raw s)] ∧
    delivered (oi tag (Except.ok o)) = [Sent.embed (oiEmbed tag o)] := by
  have hz : id ≠ 0 := getWorldId_ne_zero h1
  refine ⟨?_, ?_, ?_⟩
  · simp [population, h1, hz, h2, h3, delivered]
  · simp [pi, Except.bind, h4, Except.map, delivered]
  · simp [oi, delivered]

/-- Witness for C6: concrete success runs of all three handlers. -/
theorem handlers_send_embeds_witness :
    getWorldId "emerald" = some 17 ∧
    computeStats samplePlayer = Except.ok sampleStats ∧
    (delivered (population "emerald" fun _ => Except.ok ⟨[⟨1, 2, 3, 4⟩]⟩) =
        [Sent.embed (popEmbed "emerald" ⟨1, 2, 3, 4⟩)] ∧
      delivered (pi "Higby" (Except.ok samplePlayer)) =
        [Sent.embed (piEmbed samplePlayer sampleStats)] ∧
      delivered (oi "rps" (Except.ok ⟨"Roleplayers", "2016-05-05", 9,
          "Higby"⟩)) =
        [Sent.embed (oiEmbed "rps" ⟨"Roleplayers", "2016-05-05", 9,
          "Higby"⟩)]) :=
  ⟨by decide, computeStats_sample,
    handlers_send_embeds "emerald" 17 (fun _ => Except.ok ⟨[⟨1, 2, 3, 4⟩]⟩)
      ⟨[⟨1, 2, 3, 4⟩]⟩ ⟨1, 2, 3, 4⟩ [] (by decide) rfl rfl
      "Higby" samplePlayer sampleStats computeStats_sample
      "rps" ⟨"Roleplayers", "2016-05-05", 9, "Higby"⟩⟩

/-- C7: the statistics `pi` derives are exactly the claimed formulas:
total kills and total headshots are sums of the three
`value_forever_*` fields of the first stat row, hours played is
minutes/60, KDR is kills/deaths, KPH is kills/hours, SPM is
score/minutes, HSR is (headshots/kills)*100, each derived ratio
rounded to two decimal places (`round2`). -/
theorem pi_arithmetic (p : RawPlayer) (s : PlayerStats)
    (d : Nat) (dr : List Nat) (k : FactionValues) (kr : List FactionValues)
    (sc : Nat) (scr : List Nat) (hsv : FactionValues)
    (hsr : List FactionValues)
    (hd : p.weapon_deaths = d :: dr)
    (hk : p.weapon_kills = k :: kr)
    (hsc : p.score_all_time = sc :: scr)
    (hhs : p.weapon_headshots = hsv :: hsr)
    (h : computeStats p = Except.ok s) :
    s.total_kills =
      k.value_forever_vs + k.value_forever_nc + k.value_forever_tr ∧
    s.hs_total =
      hsv.value_forever_vs + hsv.value_forever_nc + hsv.value_forever_tr ∧
    s.total_deaths = d ∧
    s.total_score = sc ∧
    s.hours_played = round2 ((p.minutes_played : ℚ) / 60) ∧
    s.kdr = round2 ((s.total_kills : ℚ) / (s.total_deaths : ℚ)) ∧
    s.kph = round2 ((s.total_kills : ℚ) / s.hours_played) ∧
    s.spm = round2 ((s.total_score : ℚ) / (p.minutes_played : ℚ)) ∧
    s.hsr = round2 ((s.hs_total : ℚ) / (s.total_kills : ℚ) * 100) := by
  simp only [computeStats, hd, hk, hsc, hhs, expectHead, pyDiv, bind,
    Except.bind, pure, Except.pure] at h
  split_ifs at h
  all_goals simp_all
  cases h
  simp

/-- Witness for C7: the sample player's totals come out as the sums of
the faction fields. -/
theorem pi_arithmetic_witness :
    samplePlayer.weapon_kills = ⟨10, 20, 30⟩ :: [] ∧
    sampleStats.total_kills = 10 + 20 + 30 ∧
    sampleStats.hs_total = 1 + 2 + 3 := by
  have h := pi_arithmetic samplePlayer sampleStats 50 [] ⟨10, 20, 30⟩ []
    6000 [] ⟨1, 2, 3⟩ [] rfl rfl rfl rfl computeStats_sample
  exact ⟨rfl, h.1, h.2.1⟩

/-- C10: in the `except` branches of `pi` and `oi` the `ctx.send` call
is not awaited, so an error run leaves the failure text un-delivered
(the trace holds only an `awaited = false` send); the `population`
error branch awaits its send and does deliver its failure message. -/
theorem error_branch_not_awaited
    (pname tag world e1 e2 e3 : String) (id : Nat)
    (api : String → Except String PopJson)
    (h1 : getWorldId world = some id)
    (h2 : api (popSubResource id) = Except.error e3) :
    pi pname (Except.error e1) =
      [Event.send (piFailText pname) false] ∧
    delivered (pi pname (Except.error e1)) = [] ∧
    oi tag (Except.error e2) =
      [Event.send (oiFailText tag) false] ∧
    delivered (oi tag (Except.error e2)) = [] ∧
    Sent.plain (popFailText world id) ∈ delivered (population world api) := by
  have hz : id ≠ 0 := getWorldId_ne_zero h1
  refine ⟨rfl, rfl, rfl, rfl, ?_⟩
  simp [population, h1, hz, h2, delivered]

/-- Witness for C10: concrete error runs of all three handlers. -/
theorem error_branch_not_awaited_witness :
    getWorldId "jaeger" = some 19 ∧
    delivered (pi "Higby" (Except.error "HTTP 503")) = [] ∧
    delivered (oi "rps" (Except.error "HTTP 503")) = [] ∧
    Sent.plain (popFailText "jaeger" 19) ∈
      delivered (population "jaeger" fun _ => Except.error "HTTP 503") := by
  have h := error_branch_not_awaited "Higby" "rps" "jaeger" "HTTP 503"
    "HTTP 503" "HTTP 503" 19 (fun _ => Except.error "HTTP 503")
    (by decide) rfl
  exact ⟨by decide, h.2.1, h.2.2.2.1, h.2.2.2.2⟩
